import Mathlib

/-!
Shallow embedding of `lib/db.js` of restbase-mod-table-mysql: the DB layer
sitting between declarative schemas and a SQL execution engine.  External
collaborators (`dbutils`, `SchemaMigrator`, `clientWrapper`, `TimeUuid`) are
modelled as oracle arguments or as tagged statement constructors; the results
of engine calls (`client.all`, `client.run`) are passed in as explicit reply
arguments, and the side effects an operation performs are returned as an
explicit effect trace.
-/

namespace Db

/-- JavaScript-style primitive values used in attribute maps and rows. -/
inductive JsVal where
  | nullV : JsVal
  | boolV : Bool → JsVal
  | numV : Int → JsVal
  | strV : String → JsVal
deriving DecidableEq

/-- JavaScript truthiness of a value. -/
def JsVal.truthy : JsVal → Bool
  | .nullV => false
  | .boolV b => b
  | .numV n => n != 0
  | .strV s => s != ""

/-- JavaScript `.toString()` on a primitive value. -/
def JsVal.toStr : JsVal → String
  | .nullV => "null"
  | .boolV b => if b then "true" else "false"
  | .numV n => toString n
  | .strV s => s

/-- A JS object used as an attribute map / row: an association list from
attribute names to values (keys are unique in all rows the engine returns). -/
abbrev AttrMap := List (String × JsVal)

/-- Property lookup `m[k]` (`none` models `undefined`). -/
def attrGet (m : AttrMap) (k : String) : Option JsVal :=
  (m.find? (fun kv => kv.1 == k)).map (fun kv => kv.2)

/-- Property assignment `m[k] = v`: updates the (unique) existing entry in
place, appends when the key is absent. -/
def attrSet (m : AttrMap) (k : String) (v : JsVal) : AttrMap :=
  match m with
  | [] => [(k, v)]
  | kv :: rest => if kv.1 == k then (k, v) :: rest else kv :: attrSet rest k v

/-- Property deletion `delete m[k]`. -/
def attrDel (m : AttrMap) (k : String) : AttrMap :=
  m.filter (fun kv => kv.1 != k)

/-- Truthiness of `m[k]` (`undefined` is falsy). -/
def attrTruthy (m : AttrMap) (k : String) : Bool :=
  match attrGet m k with
  | some v => v.truthy
  | none => false

/-- `revisionRetentionPolicy` of a compiled schema: policy kind plus the
`count` / `grace_ttl` parameters used by the `latest` policy. -/
structure RetentionPolicy where
  type : String
  count : Nat
  grace_ttl : Int
deriving DecidableEq

/-- The compiled, normalized form of a declared schema (`SchemaInfo`), as
produced by the external `dbu.makeSchemaInfo`.  `converters` carries, per
logical type name, the `read` direction of `schema.converters[type]`.
`hasStatic` models the externally-compiled fact that the schema declares
static attributes (so `dbu.buildPutQuery` emits a `static` statement and
`dbu.staticTableExist` answers true). -/
structure SchemaInfo where
  attributes : List (String × String)
  iKeys : List String
  tid : String
  hash : String
  revisionRetentionPolicy : RetentionPolicy
  converters : String → JsVal → JsVal
  hasStatic : Bool

/-- The declared logical type of an attribute (`schema.attributes[att]`);
rows returned by the engine only carry declared attributes. -/
def SchemaInfo.attrType (s : SchemaInfo) (att : String) : String :=
  (((s.attributes.find? (fun kv => kv.1 == att)).map (fun kv => kv.2))).getD ""

/-- Modelled from the spec: the fixed built-in meta-relation schema
(`DB.prototype.infoSchemaInfo`).  Its compilation by `dbu.makeSchemaInfo`
is not under `src/`; the spec describes it as a fixed schema with attributes
`key`, `value`, `tid`, hash-partitioned on `key`, range-ordered descending on
`tid`.  Its retention policy is not `latest` (meta writes never reach the
retention engine anyway, since retention runs only for the `data` relation). -/
def infoSchemaInfo : SchemaInfo where
  attributes := [("key", "string"), ("value", "json"), ("tid", "timeuuid")]
  iKeys := ["key", "tid"]
  tid := "tid"
  hash := "info-schema-hash"
  revisionRetentionPolicy := { type := "all", count := 0, grace_ttl := 0 }
  converters := fun _ v => v
  hasStatic := false

/-- A get/put request object: `table`, `attributes`, optional pagination
fields `next` / `limit` (numbers at this interface), optional per-attribute
`order`, and the `timestamp` field `_put` assigns. -/
structure Req where
  table : Option String := none
  attributes : AttrMap := []
  next : Option Int := none
  limit : Option Int := none
  order : List (String × String) := []
  timestamp : Option Int := none
deriving DecidableEq

/-- A read result: `count`, converted `items`, and the optional pagination
accumulator `next`. -/
structure GetResult where
  count : Nat
  items : List AttrMap
  next : Option Int := none
deriving DecidableEq

/-- An error thrown by the execution engine.  `causeCode` models
`err.cause && err.cause.code` (flattened: `none` when there is no cause or
the cause has no code).  `relationMissing` is the semantic ground truth of
the failure — whether it was caused by the targeted physical relation not
existing — which the code itself never inspects. -/
structure EngineErr where
  isObject : Bool
  causeCode : Option String
  relationMissing : Bool
deriving DecidableEq

/-- Body of a structured `dbu.HTTPError`. -/
structure ErrBody where
  type : String
  title : String
  keyspace : Option String := none
  schema : Option SchemaInfo := none

/-- Errors surfaced by the DB layer: plain `new Error(message)`, structured
`dbu.HTTPError` with status and body, or a propagated engine error. -/
inductive DbError where
  | js (message : String)
  | http (status : Nat) (body : ErrBody)
  | engine (e : EngineErr)

/-- The HTTP status carried by an error, when it is a structured HTTPError. -/
def DbError.statusOf : DbError → Option Nat
  | .http s _ => some s
  | _ => none

/-- A success acknowledgement such as `{status: 201}`. -/
structure StatusRes where
  status : Nat
deriving DecidableEq

/-- Reply of `client.all(sql, params)`: a falsy result, a single row object,
an array of rows, or a thrown failure. -/
inductive AllReply where
  | absent
  | single (row : AttrMap)
  | many (rows : List AttrMap)
  | failure (e : EngineErr)
deriving DecidableEq

/-- Truthiness of an optional numeric request field (`req.next`,
`req.limit`): present and nonzero. -/
def intTruthy : Option Int → Bool
  | some n => n != 0
  | none => false

/-- Row materialisation from `DB.prototype._get`: delete the internal
`_exist_until` marker, then decode every remaining attribute through the
converter registered for its declared logical type. -/
def convertRow (schema : SchemaInfo) (row : AttrMap) : AttrMap :=
  (attrDel row "_exist_until").map (fun kv =>
    (kv.1, schema.converters (schema.attrType kv.1) kv.2))

/-- Result assembly from `DB.prototype._get`: `count` is the number of rows,
`items` the rows, and — only when `req.next || req.limit` is truthy — `next`
is `(req.next || 0) + rows.length`. -/
def paginate (req : Req) (rows : List AttrMap) : GetResult :=
  if intTruthy req.next || intTruthy req.limit then
    { count := rows.length, items := rows, next := some (req.next.getD 0 + rows.length) }
  else
    { count := rows.length, items := rows, next := none }

/-- The `then`/`catch` body of `DB.prototype._get` applied to the engine's
reply: a falsy reply yields the empty result (with no `next` field); a single
row or an array of rows is converted and paginated; a failure is absorbed
into the empty result exactly when it is an object whose `cause.code` equals
`'SQLITE_ERROR'`, and propagates unchanged otherwise. -/
def mkGetResult (schema : SchemaInfo) (req : Req) (reply : AllReply) :
    Except EngineErr GetResult :=
  match reply with
  | .failure e =>
      if e.isObject && e.causeCode == some "SQLITE_ERROR" then
        .ok { count := 0, items := [] }
      else
        .error e
  | .absent => .ok { count := 0, items := [] }
  | .single row => .ok (paginate req [convertRow schema row])
  | .many rows => .ok (paginate req (rows.map (convertRow schema)))

/-- `DB.prototype._get`: throws when no schema was resolved, otherwise
materialises the engine's reply to the compiled query. -/
def primGet (keyspace : String) (req : Req) (tablename : String)
    (schema : Option SchemaInfo) (reply : AllReply) : Except DbError GetResult :=
  match schema with
  | none => .error (.js ("restbase-sqlite3: No schema for " ++ keyspace ++ "_" ++ tablename))
  | some s =>
      match mkGetResult s req reply with
      | .ok r => .ok r
      | .error e => .error (.engine e)

/-- The process-wide schema cache (`this.schemaCache`): keyspace to compiled
schema.  A property set to `null` is modelled as an absent entry: every read
of the cache in the source is truthiness-guarded, so a `null` entry and a
missing one are observationally identical. -/
abbrev Cache := List (String × SchemaInfo)

/-- Truthiness-guarded cache read `self.schemaCache[keyspace]`. -/
def cacheGet (c : Cache) (k : String) : Option SchemaInfo :=
  (c.find? (fun kv => kv.1 == k)).map (fun kv => kv.2)

/-- Cache write `self.schemaCache[keyspace] = schema` (non-null schema). -/
def cacheSet (c : Cache) (k : String) (s : SchemaInfo) : Cache :=
  if (c.find? (fun kv => kv.1 == k)).isSome then
    c.map (fun kv => if kv.1 == k then (k, s) else kv)
  else
    c ++ [(k, s)]

/-- Cache eviction `delete self.schemaCache[keyspace]`. -/
def cacheDel (c : Cache) (k : String) : Cache :=
  c.filter (fun kv => kv.1 != k)

/-- `self.schemaCache[keyspace] = schema` where `schema` may be `null`
(the top-level `get` stores the raw `_getSchema` result). -/
def cacheSetOpt (c : Cache) (k : String) : Option SchemaInfo → Cache
  | some s => cacheSet c k s
  | none => cacheDel c k

/-- Result of `DB.prototype.getTableSchema`: status, the `tid` under which
the schema row was stored, and the stored schema description (kept in its
serialized form here; `JSON.parse` is external). -/
structure TableSchemaRes where
  status : Nat
  tid : JsVal
  schema : JsVal
deriving DecidableEq

/-- `DB.prototype.getTableSchema`: read the `meta` relation with the built-in
meta schema; a nonempty result yields status 200 with the newest row's `tid`
and schema value, an empty one throws a structured 404. -/
def getTableSchema (keyspace : String) (reply : AllReply) :
    Except DbError TableSchemaRes :=
  match primGet keyspace {} "meta" (some infoSchemaInfo) reply with
  | .error e => .error e
  | .ok res =>
      match res.items with
      | [] => .error (.http 404
          { type := "notfound", title := "the requested table schema was not found" })
      | item :: _ =>
          .ok { status := 200,
                tid := (attrGet item "tid").getD .nullV,
                schema := (attrGet item "value").getD .nullV }

/-- `DB.prototype._getSchema`: read the `meta` relation and recompile the
newest stored schema description; `none` when no metadata row exists.
`parseSchemaInfo` models `JSON.parse` composed with `dbu.makeSchemaInfo`
(both external to this file). -/
def getSchema (keyspace : String) (parseSchemaInfo : JsVal → SchemaInfo)
    (reply : AllReply) : Except DbError (Option SchemaInfo) :=
  match primGet keyspace {} "meta" (some infoSchemaInfo) reply with
  | .error e => .error e
  | .ok res =>
      match res.items with
      | [] => .ok none
      | item :: _ => .ok (some (parseSchemaInfo ((attrGet item "value").getD .nullV)))

/-- `DB.prototype.get`: resolve the schema from the cache, else load it from
metadata (storing the — possibly null — result in the cache), then delegate
to the primitive read against the `data` relation.  `metaReply` and
`dataReply` are the engine's replies to the two possible queries. -/
def getOp (keyspace : String) (req : Req) (cache : Cache)
    (parseSchemaInfo : JsVal → SchemaInfo) (metaReply dataReply : AllReply) :
    Except DbError GetResult × Cache :=
  match cacheGet cache keyspace with
  | some s => (primGet keyspace req "data" (some s) dataReply, cache)
  | none =>
      match getSchema keyspace parseSchemaInfo metaReply with
      | .error e => (.error e, cache)
      | .ok os => (primGet keyspace req "data" os dataReply, cacheSetOpt cache keyspace os)

/-- A statement handed to `client.run`.  `raw` statements are the literal SQL
strings `dropTable` builds itself; the remaining constructors tag the opaque
outputs of the external `dbutils` builders by the arguments the source passes
to them (schemas are identified by their stable content `hash`). -/
inductive Stmt where
  | raw (sql : String)
  | tableSql (keyspace tablename schemaHash : String)
  | staticsTableSql (keyspace schemaHash : String)
  | indexViewSql (keyspace schemaHash : String)
  | putQueryData (keyspace tablename : String) (req : Req)
  | putQueryStatic (keyspace : String) (req : Req)
  | deleteExpiredQuery (keyspace schemaHash : String)
deriving DecidableEq

/-- One observable side effect of an operation: a read submitted to
`client.all` (identified by the request object the source builds for it), a
batch submitted to `client.run`, a `SchemaMigrator` construction attempt, a
`migrate()` execution, or an error log line. -/
inductive Effect where
  | engineAll (keyspace tablename : String) (req : Req)
  | runBatch (stmts : List Stmt)
  | migratorNew (cur cand : SchemaInfo)
  | migrate (cur cand : SchemaInfo)
  | logErr (tag : String)

/-- The read request `_revisionPolicyUpdate` builds: the written item's
reduced key (every `iKeys` attribute except `tid`, copied from the written
request's attributes) with ascending order on `tid`. -/
def retentionReadQuery (schema : SchemaInfo) (query : Req) : Req :=
  { table := query.table,
    attributes := (schema.iKeys.filter (fun a => a != schema.tid)).filterMap
      (fun att => (attrGet query.attributes att).map (fun v => (att, v))),
    order := [(schema.tid, "asc")] }

/-- The mark statement built for one excess revision: a put whose attributes
are the revision's attributes with `_exist_until` set to the expiry time. -/
def markStmt (keyspace : String) (query : Req) (expireTime : Int)
    (item : AttrMap) : Stmt :=
  .putQueryData keyspace "data"
    { table := query.table, attributes := attrSet item "_exist_until" (.numV expireTime) }

/-- `DB.prototype._revisionPolicyUpdate`, as the effect trace it produces.
Only the `latest` policy acts.  It reads all revisions of the written item
ordered by `tid` ascending; when the returned count exceeds the policy's
`count`, it marks the oldest excess revisions with `_exist_until =
now + grace_ttl * 1000` and runs those marks in one batch together with the
delete-expired statement.  `retReply` is the engine's reply to the read; a
read failure aborts the (unawaited) chain with no batch. -/
def revisionPolicyUpdate (keyspace : String) (schema : SchemaInfo) (query : Req)
    (nowMs : Int) (retReply : AllReply) : List Effect :=
  if schema.revisionRetentionPolicy.type = "latest" then
    let expireTime := nowMs + schema.revisionRetentionPolicy.grace_ttl * 1000
    let dataQuery := retentionReadQuery schema query
    match primGet keyspace dataQuery "data" (some schema) retReply with
    | .error _ => [.engineAll keyspace "data" dataQuery]
    | .ok result =>
        if schema.revisionRetentionPolicy.count < result.count then
          [.engineAll keyspace "data" dataQuery,
           .runBatch
             ((result.items.take (result.count - schema.revisionRetentionPolicy.count)).map
                 (markStmt keyspace query expireTime)
               ++ [.deleteExpiredQuery keyspace schema.hash])]
        else
          [.engineAll keyspace "data" dataQuery]
  else []

/-- Outcome of a primitive write: the caller-visible result, the caller's
request object after the in-place mutations `_put` performs on it, and the
effect trace. -/
structure PutOut where
  result : Except DbError StatusRes
  req : Req
  effects : List Effect

/-- `DB.prototype._put`.  Oracles: `genTid` is the string form of the fresh
`TimeUuid.now()` the external library would generate; `tidTime` decodes the
time embedded in a tid string (`TimeUuid.fromString(x).getDate()`, as epoch
milliseconds); `nowMs` is the wall clock read inside the retention engine;
`runErr` is a failure of the put batch, when any; `retReply` is the engine's
reply to the retention read.  The request is mutated in place: a missing (or
falsy) tid attribute is replaced by the generated one, and `timestamp` is
always overwritten with the time decoded from the tid actually used. -/
def primPut (keyspace : String) (req0 : Req) (tableArg : Option String)
    (cache : Cache) (genTid : String) (tidTime : String → Int) (nowMs : Int)
    (runErr : Option EngineErr) (retReply : AllReply) : PutOut :=
  let tablename := tableArg.getD "data"
  let schemaRes : Option SchemaInfo :=
    if tablename = "meta" then some infoSchemaInfo
    else if tablename = "data" then cacheGet cache keyspace
    else none
  match schemaRes with
  | none => { result := .error (.js "Table not found!"), req := req0, effects := [] }
  | some schema =>
      let req1 :=
        if attrTruthy req0.attributes schema.tid then req0
        else { req0 with attributes := attrSet req0.attributes schema.tid (.strV genTid) }
      let tidVal := (attrGet req1.attributes schema.tid).getD .nullV
      let req2 := { req1 with timestamp := some (tidTime tidVal.toStr) }
      let queries := [Stmt.putQueryData keyspace tablename req2]
        ++ (if schema.hasStatic then [Stmt.putQueryStatic keyspace req2] else [])
      match runErr with
      | some e => { result := .error (.engine e), req := req2, effects := [.runBatch queries] }
      | none =>
          let retEffects :=
            if tablename = "data" then
              revisionPolicyUpdate keyspace schema req2 nowMs retReply
            else []
          { result := .ok { status := 201 }, req := req2,
            effects := [.runBatch queries] ++ retEffects }

/-- `DB.prototype.put`: resolve the schema from the cache, else load it from
metadata (storing the result in the cache), then delegate to `_put` against
the `data` relation. -/
def putOp (keyspace : String) (req : Req) (cache : Cache)
    (parseSchemaInfo : JsVal → SchemaInfo) (metaReply : AllReply)
    (genTid : String) (tidTime : String → Int) (nowMs : Int)
    (runErr : Option EngineErr) (retReply : AllReply) : PutOut × Cache :=
  match cacheGet cache keyspace with
  | some _ => (primPut keyspace req none cache genTid tidTime nowMs runErr retReply, cache)
  | none =>
      match getSchema keyspace parseSchemaInfo metaReply with
      | .error e => ({ result := .error e, req := req, effects := [] }, cache)
      | .ok os =>
          let cache1 := cacheSetOpt cache keyspace os
          (primPut keyspace req none cache1 genTid tidTime nowMs runErr retReply, cache1)

/-- Behaviour of the external `SchemaMigrator` for one `createTable` call:
its constructor may throw (incompatible schema change), `migrate()` may
reject with an error, or the migration succeeds. -/
inductive MigOutcome where
  | ctorFail (msg : String)
  | runFail (e : DbError)
  | ok

/-- Outcome of `createTable` / `dropTable`: the caller-visible result, the
schema cache after the call, and the effect trace. -/
structure CreateOut where
  result : Except DbError StatusRes
  cache : Cache
  effects : List Effect

/-- The tail shared by the creating and migrating paths of `createTable`:
update the schema cache with the candidate, then persist the normalized
schema description as a `meta` row with key `"schema"` (via `_put`, which
assigns the row a fresh `tid`).  `schemaJson` is `JSON.stringify(schema)`;
the meta write's batch is taken to succeed (its failure would propagate). -/
def finishCreate (keyspace : String) (cand : SchemaInfo) (schemaJson : String)
    (cache : Cache) (genTid : String) (tidTime : String → Int)
    (pre : List Effect) : CreateOut :=
  let cache1 := cacheSet cache keyspace cand
  let metaReq : Req :=
    { attributes := [("key", .strV "schema"), ("value", .strV schemaJson)] }
  let p := primPut keyspace metaReq (some "meta") cache1 genTid tidTime 0 none .absent
  { result := p.result, cache := cache1, effects := pre ++ p.effects }

/-- `DB.prototype._createTable`'s DDL batch: data table, meta table, statics
table and index view statements, built by the external `dbutils` builders. -/
def createTableBatch (keyspace : String) (cand : SchemaInfo) : List Stmt :=
  [ .tableSql keyspace "data" cand.hash,
    .tableSql keyspace "meta" infoSchemaInfo.hash,
    .staticsTableSql keyspace cand.hash,
    .indexViewSql keyspace cand.hash ]

/-- `DB.prototype.createTable`.  Oracles: `currentSchema` is the result of
`_getSchema` for the keyspace; `cand` is `dbu.makeSchemaInfo` applied to the
normalized request and `schemaJson` the serialized normalized schema; `mig`
is the `SchemaMigrator`'s behaviour; `genTid` / `tidTime` feed the meta
write.  A missing table name throws; with no current schema the physical
relations are created; with a current schema of equal hash the call is a
no-op returning `{status: 201}`; otherwise the migrator runs — construction
failure becomes a structured 400 carrying the keyspace and the candidate,
`migrate()` failure is logged and rethrown unchanged, and success proceeds
to the cache update and meta write. -/
def createTable (keyspace : String) (tableName : Option String)
    (currentSchema : Option SchemaInfo) (cand : SchemaInfo) (schemaJson : String)
    (mig : MigOutcome) (cache : Cache) (genTid : String)
    (tidTime : String → Int) : CreateOut :=
  match tableName with
  | none => { result := .error (.js "Table name required."), cache := cache, effects := [] }
  | some _ =>
      match currentSchema with
      | some cur =>
          if cur.hash ≠ cand.hash then
            match mig with
            | .ctorFail msg =>
                { result := .error (.http 400
                    { type := "bad_request",
                      title := "The table already exists, and its schema cannot be upgraded to the requested schema (" ++ msg ++ ").",
                      keyspace := some keyspace,
                      schema := some cand }),
                  cache := cache,
                  effects := [.migratorNew cur cand] }
            | .runFail e =>
                { result := .error e, cache := cache,
                  effects := [.migratorNew cur cand, .migrate cur cand,
                              .logErr "error/cassandra/table_update"] }
            | .ok =>
                finishCreate keyspace cand schemaJson cache genTid tidTime
                  [.migratorNew cur cand, .migrate cur cand]
          else
            { result := .ok { status := 201 }, cache := cache, effects := [] }
      | none =>
          finishCreate keyspace cand schemaJson cache genTid tidTime
            [.runBatch (createTableBatch keyspace cand)]

/-- Modelled from the spec: `dbu.staticTableExist` (not under `src/`) — true
exactly when the schema indicates a `static` relation exists; with no schema
the static drop is skipped since its existence is unknown. -/
def staticTableExist : Option SchemaInfo → Bool
  | some s => s.hasStatic
  | none => false

/-- The drop batch `dropTable` builds from literal SQL: index view, meta
relation and data relation, plus the static relation exactly when the
resolved schema indicates one exists. -/
def deleteRequest (keyspace : String) (schema : Option SchemaInfo) : List Stmt :=
  [ .raw ("drop view " ++ keyspace ++ "_indexView"),
    .raw ("drop table " ++ keyspace ++ "_meta"),
    .raw ("drop table " ++ keyspace ++ "_data") ]
  ++ (if staticTableExist schema then
        [.raw ("drop table " ++ keyspace ++ "_static")]
      else [])

/-- Outcome of `dropTable`: the cache after the call and the effect trace. -/
structure DropOut where
  cache : Cache
  effects : List Effect

/-- `DB.prototype.dropTable`: with a cache entry present, evict it and use it
as the schema; otherwise load the schema from metadata (`loadedSchema` is
that `_getSchema` result, possibly `none`) without touching the cache; then
run the drop batch. -/
def dropTable (keyspace : String) (cache : Cache)
    (loadedSchema : Option SchemaInfo) : DropOut :=
  match cacheGet cache keyspace with
  | none =>
      { cache := cache, effects := [.runBatch (deleteRequest keyspace loadedSchema)] }
  | some s =>
      { cache := cacheDel cache keyspace,
        effects := [.runBatch (deleteRequest keyspace (some s))] }

/-- Modelled from the spec: a revision's expiry marker has already passed
`now` (the condition the statement built by `dbu.buildDeleteExpiredQuery`,
not under `src/`, deletes on). -/
def rowExpired (nowMs : Int) (row : AttrMap) : Bool :=
  match attrGet row "_exist_until" with
  | some (.numV t) => t < nowMs
  | _ => false

/-- Modelled from the spec: executing the delete-expired statement on the
data relation's rows physically deletes any revision whose expiry marker has
already passed `now`, keeping every other row. -/
def runDeleteExpired (nowMs : Int) (store : List AttrMap) : List AttrMap :=
  store.filter (fun r => !(rowExpired nowMs r))

/-- Modelled from the spec and the sqlite driver (the `clientWrapper` is not
under `src/`): the error the engine throws when the targeted physical
relation does not exist — an `Error` object whose `cause.code` is the
generic `'SQLITE_ERROR'`. -/
def noSuchTableErr : EngineErr :=
  { isObject := true, causeCode := some "SQLITE_ERROR", relationMissing := true }

/-- Modelled from the spec and the sqlite driver: a structural execution
failure that is not a missing relation (e.g. a missing column) carries the
same generic `'SQLITE_ERROR'` cause code. -/
def otherSqliteErr : EngineErr :=
  { isObject := true, causeCode := some "SQLITE_ERROR", relationMissing := false }

/-- A sample retention policy of kind `latest`. -/
def latestPolicy : RetentionPolicy :=
  { type := "latest", count := 2, grace_ttl := 86400 }

/-- A sample compiled data schema used as concrete input in witnesses. -/
def sampleSchema : SchemaInfo where
  attributes := [("title", "string"), ("tid", "timeuuid"), ("comment", "string")]
  iKeys := ["title", "tid"]
  tid := "tid"
  hash := "hash-v1"
  revisionRetentionPolicy := latestPolicy
  converters := fun _ v => v
  hasStatic := false

/-- `sampleSchema` under an earlier schema version (different hash). -/
def sampleSchemaV0 : SchemaInfo :=
  { sampleSchema with hash := "hash-v0" }

/-- A sample write request with a caller-supplied (truthy) tid. -/
def reqWithTid : Req :=
  { table := some "T", attributes := [("title", .strV "x"), ("tid", .strV "t-9")] }

/-- The third (most recent) write to the sample item. -/
def retWreq : Req :=
  { table := some "T", attributes := [("title", .strV "a"), ("tid", .strV "t3")] }

/-- The three stored revisions of the sample item, oldest first. -/
def retRows : List AttrMap :=
  [ [("title", .strV "a"), ("tid", .strV "t1")],
    [("title", .strV "a"), ("tid", .strV "t2")],
    [("title", .strV "a"), ("tid", .strV "t3")] ]

/-- The materialised retention read over `retRows`. -/
def retResult : GetResult :=
  { count := 3, items := retRows, next := none }

theorem attrGet_attrSet (m : AttrMap) (k : String) (v : JsVal) :
    attrGet (attrSet m k v) k = some v := by
  induction m with
  | nil => simp [attrSet, attrGet]
  | cons kv rest ih =>
      by_cases h : kv.1 == k
      · simp [attrSet, h, attrGet]
      · simpa [attrSet, h, attrGet] using ih

theorem attrGet_attrSet_ne (m : AttrMap) (k k2 : String) (v : JsVal)
    (h : k2 ≠ k) : attrGet (attrSet m k v) k2 = attrGet m k2 := by
  have hne : (k == k2) = false := beq_eq_false_iff_ne.mpr (Ne.symm h)
  induction m with
  | nil => simp [attrSet, attrGet, List.find?, hne]
  | cons kv rest ih =>
      by_cases hk : kv.1 == k
      · have hkv2 : (kv.1 == k2) = false := by
          rw [eq_of_beq hk]
          exact hne
        simp [attrSet, hk, attrGet, List.find?, hkv2, hne]
      · by_cases hk2 : kv.1 == k2
        · simp [attrSet, hk, attrGet, List.find?, hk2]
        · simpa [attrSet, hk, attrGet, List.find?, hk2] using ih

theorem paginate_count_items (req : Req) (rows : List AttrMap) :
    (paginate req rows).count = (paginate req rows).items.length := by
  unfold paginate
  split <;> rfl

/-- A successfully materialised read has `count` equal to the number of
`items` (shared helper). -/
theorem primGet_count_items (keyspace : String) (req : Req) (tablename : String)
    (schema : Option SchemaInfo) (reply : AllReply) (r : GetResult)
    (h : primGet keyspace req tablename schema reply = .ok r) :
    r.count = r.items.length := by
  cases schema with
  | none => simp [primGet] at h
  | some s =>
      cases reply with
      | absent =>
          simp [primGet, mkGetResult] at h
          simp [← h]
      | failure e =>
          by_cases he : (e.isObject && e.causeCode == some "SQLITE_ERROR") = true
          · simp [primGet, mkGetResult, he] at h
            simp [← h]
          · simp [primGet, mkGetResult, he] at h
      | single row =>
          simp [primGet, mkGetResult] at h
          simp [← h, paginate_count_items]
      | many rows =>
          simp [primGet, mkGetResult] at h
          simp [← h, paginate_count_items]

/-- C10: every read that resolves successfully returns a result whose
`count` field equals the length of its `items` sequence, under all three
execution-engine result shapes (absent result, single row object, array of
rows) and in the absorbed relation-missing error case. -/
theorem read_count_matches_items (keyspace : String) (req : Req)
    (tablename : String) (schema : Option SchemaInfo) (reply : AllReply)
    (r : GetResult) (h : primGet keyspace req tablename schema reply = .ok r) :
    r.count = r.items.length :=
  primGet_count_items keyspace req tablename schema reply r h

theorem read_count_matches_items_witness :
    (({ count := 1, items := [[("title", JsVal.strV "a")]], next := none } : GetResult)).count
      = (({ count := 1, items := [[("title", JsVal.strV "a")]], next := none } : GetResult)).items.length :=
  read_count_matches_items "W" {} "data" (some sampleSchema)
    (.single [("title", .strV "a")])
    { count := 1, items := [[("title", JsVal.strV "a")]], next := none } rfl

/-- C5 (amended): the result carries a `next` field iff the engine produced
a non-absent, non-absorbed reply and the request's `next` or `limit` field
is present with a truthy (nonzero) value; its value is then
`(request.next when truthy, else 0)` plus the number of rows returned.  The
falsy-result early return and the absorbed-error return carry no `next`
field even when the request specified pagination. -/
theorem read_next_accumulator (s : SchemaInfo) (req : Req)
    (rows : List AttrMap) (row : AttrMap) :
    (∀ r, mkGetResult s req (.many rows) = .ok r →
        r.next = if intTruthy req.next || intTruthy req.limit then
            some (req.next.getD 0 + r.count) else none) ∧
    (∀ r, mkGetResult s req (.single row) = .ok r →
        r.next = if intTruthy req.next || intTruthy req.limit then
            some (req.next.getD 0 + r.count) else none) ∧
    mkGetResult s req .absent = .ok { count := 0, items := [], next := none } := by
  refine ⟨fun r h => ?_, fun r h => ?_, rfl⟩ <;>
  · simp [mkGetResult] at h
    subst h
    unfold paginate
    split
    next hc => simp [hc]
    next hc => simp [hc]

theorem read_next_accumulator_witness :
    ({ count := 1, items := [[("title", JsVal.strV "a")]], next := some 4 } : GetResult).next
      = if intTruthy (some 3) || intTruthy (none : Option Int) then
          some ((some (3 : Int)).getD 0
            + ({ count := 1, items := [[("title", JsVal.strV "a")]], next := some 4 } : GetResult).count)
        else none :=
  (read_next_accumulator sampleSchema { next := some 3 } [[("title", .strV "a")]] []).1
    { count := 1, items := [[("title", JsVal.strV "a")]], next := some 4 } rfl

/-- C5 counterexample: the claim says the result carries `next` iff the
request specified `next` or `limit`.  This request specifies `next = 0`
(a legitimate initial offset), yet the truthiness test `req.next || req.limit`
fails and the result carries no `next` field. -/
theorem read_next_specified_zero_cex :
    ({ next := some 0 } : Req).next = some 0 ∧
    mkGetResult sampleSchema { next := some 0 } (.many [[("title", JsVal.strV "a")]])
      = .ok { count := 1, items := [[("title", JsVal.strV "a")]], next := none } :=
  ⟨rfl, rfl⟩

/-- C6 (amended): a failed read returns the empty result iff the thrown
error is an object whose `cause.code` is the generic `'SQLITE_ERROR'`.
Relation-missing failures carry exactly that shape and are therefore
absorbed, but so is any other failure with that cause code; failures of a
different shape propagate unchanged. -/
theorem read_error_absorption (s : SchemaInfo) (req : Req) (e : EngineErr) :
    (mkGetResult s req (.failure e) = .ok { count := 0, items := [], next := none }
      ↔ (e.isObject && e.causeCode == some "SQLITE_ERROR") = true) ∧
    mkGetResult s req (.failure noSuchTableErr)
      = .ok { count := 0, items := [], next := none } ∧
    ((e.isObject && e.causeCode == some "SQLITE_ERROR") = false →
        mkGetResult s req (.failure e) = .error e) := by
  refine ⟨?_, rfl, fun hf => ?_⟩
  · constructor
    · intro h
      by_contra hne
      simp [mkGetResult, hne] at h
    · intro h
      simp [mkGetResult, h]
  · simp [mkGetResult, hf]

theorem read_error_absorption_witness :
    mkGetResult sampleSchema {} (.failure { isObject := false, causeCode := none, relationMissing := false })
      = .error { isObject := false, causeCode := none, relationMissing := false } :=
  (read_error_absorption sampleSchema {}
      { isObject := false, causeCode := none, relationMissing := false }).2.2 rfl

/-- C6 counterexample: an execution failure that is not caused by a missing
relation (e.g. a missing column) but carries the generic `'SQLITE_ERROR'`
cause code is also absorbed into the empty result, contradicting the claim
that only relation-missing failures are absorbed and every other failure
propagates. -/
theorem read_error_absorption_cex :
    otherSqliteErr.relationMissing = false ∧
    mkGetResult sampleSchema {} (.failure otherSqliteErr)
      = .ok { count := 0, items := [], next := none } :=
  ⟨rfl, rfl⟩

/-- C7 (amended): against a keyspace for which no metadata row exists (and
no cache entry), `getTableSchema` fails with a structured 404 not-found
error; `get` and `put`, however, fail with plain (non-structured) errors —
`get` with `'restbase-sqlite3: No schema for <keyspace>_data'` and `put`
with `'Table not found!'` — neither of which carries an HTTP status. -/
theorem missing_metadata_errors (keyspace : String) (req : Req)
    (parseSchemaInfo : JsVal → SchemaInfo) (dataReply : AllReply)
    (genTid : String) (tidTime : String → Int) (nowMs : Int)
    (retReply : AllReply) (metaReply : AllReply)
    (hmeta : metaReply = .absent ∨ metaReply = .many []) :
    getTableSchema keyspace metaReply
      = .error (.http 404
          { type := "notfound", title := "the requested table schema was not found" }) ∧
    (getOp keyspace req [] parseSchemaInfo metaReply dataReply).1
      = .error (.js ("restbase-sqlite3: No schema for " ++ keyspace ++ "_" ++ "data")) ∧
    (putOp keyspace req [] parseSchemaInfo metaReply genTid tidTime nowMs none retReply).1.result
      = .error (.js "Table not found!") ∧
    DbError.statusOf (.js ("restbase-sqlite3: No schema for " ++ keyspace ++ "_" ++ "data")) = none ∧
    DbError.statusOf (.js "Table not found!") = none := by
  rcases hmeta with h | h <;> subst h <;> exact ⟨rfl, rfl, rfl, rfl, rfl⟩

theorem missing_metadata_errors_witness :
    getTableSchema "Wks" (.many [])
      = .error (.http 404
          { type := "notfound", title := "the requested table schema was not found" }) :=
  (missing_metadata_errors "Wks" {} (fun _ => sampleSchema) .absent "t0"
    (fun _ => 0) 0 .absent (.many []) (Or.inr rfl)).1

/-- C7 counterexample: the claim says a `put` against a keyspace with no
metadata row fails with a structured 404; it actually fails with the plain
error `'Table not found!'`, which carries no HTTP status at all. -/
theorem missing_metadata_put_cex :
    (putOp "ksA" {} [] (fun _ => sampleSchema) (.many []) "t0" (fun _ => 0) 0 none .absent).1.result
      = .error (.js "Table not found!") ∧
    DbError.statusOf (.js "Table not found!") = none :=
  ⟨rfl, rfl⟩

/-- C8: `dropTable` evicts the cache entry when one exists (using it as the
schema); the drop runs as one batch of literal drop statements for the index
view, the `meta` relation and the `data` relation, plus the `static`
relation exactly when the resolved schema indicates a static relation
exists; with no schema resolvable the static drop is skipped but the fixed
three drops are still attempted. -/
theorem dropTable_spec (keyspace : String) (cache : Cache)
    (loaded : Option SchemaInfo) :
    (∀ s, cacheGet cache keyspace = some s →
        dropTable keyspace cache loaded
          = { cache := cacheDel cache keyspace,
              effects := [.runBatch (deleteRequest keyspace (some s))] }) ∧
    (cacheGet cache keyspace = none →
        dropTable keyspace cache loaded
          = { cache := cache,
              effects := [.runBatch (deleteRequest keyspace loaded)] }) ∧
    (∀ os, deleteRequest keyspace os
        = [ .raw ("drop view " ++ keyspace ++ "_indexView"),
            .raw ("drop table " ++ keyspace ++ "_meta"),
            .raw ("drop table " ++ keyspace ++ "_data") ]
          ++ (if staticTableExist os then
                [.raw ("drop table " ++ keyspace ++ "_static")]
              else [])) ∧
    staticTableExist none = false := by
  refine ⟨fun s hs => ?_, fun hn => ?_, fun os => rfl, rfl⟩
  · unfold dropTable
    rw [hs]
  · unfold dropTable
    rw [hn]

theorem dropTable_spec_witness :
    dropTable "Dks" [("Dks", sampleSchema)] none
      = { cache := cacheDel [("Dks", sampleSchema)] "Dks",
          effects := [.runBatch (deleteRequest "Dks" (some sampleSchema))] } :=
  (dropTable_spec "Dks" [("Dks", sampleSchema)] none).1 sampleSchema rfl

/-- C2 (amended): a `createTable` call whose candidate schema compiles to
the same hash as the stored current schema performs no physical DDL, invokes
no migration, writes no metadata row and leaves the cache untouched, and
returns the success status 201 — the very same status the first (creating)
call returns, so the two are not distinguishable by status. -/
theorem createTable_idempotent (keyspace tn : String) (cur cand : SchemaInfo)
    (schemaJson : String) (mig : MigOutcome) (cache : Cache)
    (genTid genTid2 : String) (tidTime : String → Int)
    (h : cur.hash = cand.hash) :
    createTable keyspace (some tn) (some cur) cand schemaJson mig cache genTid tidTime
      = { result := .ok { status := 201 }, cache := cache, effects := [] } ∧
    (createTable keyspace (some tn) none cand schemaJson mig cache genTid2 tidTime).result
      = .ok { status := 201 } := by
  constructor
  · simp [createTable, h]
  · rfl

theorem createTable_idempotent_witness :
    createTable "Cks" (some "T") (some sampleSchema) sampleSchema "sj" .ok []
        "t1" (fun _ => 0)
      = { result := .ok { status := 201 }, cache := [], effects := [] } :=
  (createTable_idempotent "Cks" "T" sampleSchema sampleSchema "sj" .ok [] "t1"
    "t2" (fun _ => 0) rfl).1

/-- C2 counterexample: the claim requires the repeat call's success status to
be distinguishable from the first (creating) call's status; both calls in
fact return the identical status 201. -/
theorem createTable_same_status_cex :
    (createTable "Cks" (some "T") none sampleSchema "sj" .ok [] "t1" (fun _ => 0)).result
      = .ok { status := 201 } ∧
    (createTable "Cks" (some "T") (some sampleSchema) sampleSchema "sj" .ok [] "t2" (fun _ => 0)).result
      = .ok { status := 201 } :=
  ⟨rfl, rfl⟩

/-- C3 (amended): when the current schema's hash differs from the
candidate's, the migration engine is constructed exactly once with the
current and candidate schemas.  If construction fails, a structured 400
bad-request error carrying the keyspace and the candidate schema is
returned, with no metadata write and no cache update.  If `migrate()`
execution fails, the failure is logged and the original error propagates
unchanged — it is not wrapped in a 400 — again with no metadata write and no
cache update.  On success the cache is updated with the candidate and the
normalized schema is persisted as one `meta` row with key `"schema"`. -/
theorem createTable_migration (keyspace tn : String) (cur cand : SchemaInfo)
    (schemaJson : String) (cache : Cache) (genTid : String)
    (tidTime : String → Int) (h : cur.hash ≠ cand.hash) :
    (∀ msg, createTable keyspace (some tn) (some cur) cand schemaJson
        (.ctorFail msg) cache genTid tidTime
      = { result := .error (.http 400
            { type := "bad_request",
              title := "The table already exists, and its schema cannot be upgraded to the requested schema (" ++ msg ++ ").",
              keyspace := some keyspace,
              schema := some cand }),
          cache := cache,
          effects := [.migratorNew cur cand] }) ∧
    (∀ e, createTable keyspace (some tn) (some cur) cand schemaJson
        (.runFail e) cache genTid tidTime
      = { result := .error e,
          cache := cache,
          effects := [.migratorNew cur cand, .migrate cur cand,
                      .logErr "error/cassandra/table_update"] }) ∧
    createTable keyspace (some tn) (some cur) cand schemaJson .ok cache genTid tidTime
      = { result := .ok { status := 201 },
          cache := cacheSet cache keyspace cand,
          effects := [.migratorNew cur cand, .migrate cur cand,
            .runBatch [Stmt.putQueryData keyspace "meta"
              { attributes := [("key", .strV "schema"), ("value", .strV schemaJson),
                               ("tid", .strV genTid)],
                timestamp := some (tidTime genTid) }]] } := by
  refine ⟨fun msg => ?_, fun e => ?_, ?_⟩ <;>
    simp [createTable, h, finishCreate, primPut, attrTruthy, attrGet, attrSet,
      List.find?, infoSchemaInfo, JsVal.toStr]

theorem createTable_migration_witness :
    createTable "Mks" (some "T") (some sampleSchemaV0) sampleSchema "sj" .ok []
        "t3" (fun _ => 7)
      = { result := .ok { status := 201 },
          cache := cacheSet [] "Mks" sampleSchema,
          effects := [.migratorNew sampleSchemaV0 sampleSchema,
            .migrate sampleSchemaV0 sampleSchema,
            .runBatch [Stmt.putQueryData "Mks" "meta"
              { attributes := [("key", .strV "schema"), ("value", .strV "sj"),
                               ("tid", .strV "t3")],
                timestamp := some 7 }]] } :=
  (createTable_migration "Mks" "T" sampleSchemaV0 sampleSchema "sj" [] "t3"
    (fun _ => 7) (by decide)).2.2

/-- C3 counterexample: the claim says any migration failure yields a
structured 400; a failure of `migrate()` execution (as opposed to migrator
construction) is propagated unchanged — here a plain error with no HTTP
status at all. -/
theorem createTable_migrate_error_cex :
    (createTable "Mks" (some "T") (some sampleSchemaV0) sampleSchema "sj"
        (.runFail (.js "boom")) [] "t3" (fun _ => 0)).result
      = .error (.js "boom") ∧
    DbError.statusOf (.js "boom") = none := by
  constructor
  · simp [createTable, show sampleSchemaV0.hash ≠ sampleSchema.hash by decide]
  · rfl

/-- Unfolding of `primPut` for a write to the `data` relation whose schema
resolves from the cache (shared helper). -/
theorem primPut_data_eq (keyspace : String) (req : Req) (cache : Cache)
    (schema : SchemaInfo) (genTid : String) (tidTime : String → Int)
    (nowMs : Int) (runErr : Option EngineErr) (retReply : AllReply)
    (hc : cacheGet cache keyspace = some schema) :
    primPut keyspace req none cache genTid tidTime nowMs runErr retReply =
      let req1 := if attrTruthy req.attributes schema.tid then req
        else { req with attributes := attrSet req.attributes schema.tid (.strV genTid) }
      let req2 := { req1 with
        timestamp := some (tidTime (((attrGet req1.attributes schema.tid).getD .nullV).toStr)) }
      let queries := [Stmt.putQueryData keyspace "data" req2]
        ++ (if schema.hasStatic then [Stmt.putQueryStatic keyspace req2] else [])
      match runErr with
      | some e => { result := .error (.engine e), req := req2, effects := [.runBatch queries] }
      | none =>
          { result := .ok { status := 201 }, req := req2,
            effects := [.runBatch queries]
              ++ revisionPolicyUpdate keyspace schema req2 nowMs retReply } := by
  simp [primPut, hc]

/-- C4: a put whose request attribute map contains no value for the schema's
`tid` attribute uses the freshly generated time-ordered identifier as the
stored row's `tid`; and for every put the write's logical timestamp equals
the time decoded from the `tid` value actually used — independent of the
wall clock. -/
theorem put_tid_assignment (keyspace : String) (req : Req) (cache : Cache)
    (schema : SchemaInfo) (genTid : String) (tidTime : String → Int)
    (nowMs nowMs2 : Int) (runErr : Option EngineErr) (retReply retReply2 : AllReply)
    (hc : cacheGet cache keyspace = some schema) :
    (attrGet req.attributes schema.tid = none →
        attrGet (primPut keyspace req none cache genTid tidTime nowMs runErr retReply).req.attributes
            schema.tid
          = some (.strV genTid)) ∧
    (primPut keyspace req none cache genTid tidTime nowMs runErr retReply).req.timestamp
      = some (tidTime
          (((attrGet (primPut keyspace req none cache genTid tidTime nowMs runErr retReply).req.attributes
              schema.tid).getD .nullV).toStr)) ∧
    (runErr = none →
        (primPut keyspace req none cache genTid tidTime nowMs runErr retReply).effects.head?
          = some (.runBatch
              ([Stmt.putQueryData keyspace "data"
                  (primPut keyspace req none cache genTid tidTime nowMs runErr retReply).req]
                ++ (if schema.hasStatic then
                      [Stmt.putQueryStatic keyspace
                        (primPut keyspace req none cache genTid tidTime nowMs runErr retReply).req]
                    else [])))) ∧
    (primPut keyspace req none cache genTid tidTime nowMs runErr retReply).req
      = (primPut keyspace req none cache genTid tidTime nowMs2 runErr retReply2).req := by
  have he := primPut_data_eq keyspace req cache schema genTid tidTime nowMs runErr retReply hc
  have he2 := primPut_data_eq keyspace req cache schema genTid tidTime nowMs2 runErr retReply2 hc
  refine ⟨fun hab => ?_, ?_, fun hre => ?_, ?_⟩
  · have ht : attrTruthy req.attributes schema.tid = false := by
      simp [attrTruthy, hab]
    rw [he]
    cases runErr <;> simp [ht, attrGet_attrSet]
  · rw [he]
    cases runErr <;> by_cases ht : attrTruthy req.attributes schema.tid <;> simp [ht]
  · subst hre
    rw [he]
    by_cases ht : attrTruthy req.attributes schema.tid <;> simp [ht]
  · rw [he, he2]
    cases runErr <;> by_cases ht : attrTruthy req.attributes schema.tid <;> simp [ht]

theorem put_tid_assignment_witness :
    attrGet (primPut "Pks" { table := some "T", attributes := [("title", .strV "x")] }
        none [("Pks", sampleSchema)] "uuid-1" (fun _ => 42) 0 none .absent).req.attributes
        sampleSchema.tid
      = some (.strV "uuid-1") :=
  (put_tid_assignment "Pks" { table := some "T", attributes := [("title", .strV "x")] }
      [("Pks", sampleSchema)] sampleSchema "uuid-1" (fun _ => 42) 0 0 none .absent
      .absent rfl).1 rfl

/-- C9: `_put` mutates the caller's request object: a request that omits the
schema's `tid` attribute gets the generated value written into its attribute
map, a request with a (truthy) caller-supplied `tid` keeps its attribute map
unchanged, and in all cases the request's `timestamp` is overwritten — the
previously stored timestamp value has no influence on the outcome.  In this
embedding the mutated object is returned in the `req` field of `PutOut`,
modelling that the caller observes the mutations through its own reference
after the call. -/
theorem put_mutates_request (keyspace : String) (req : Req) (cache : Cache)
    (schema : SchemaInfo) (genTid : String) (tidTime : String → Int)
    (nowMs : Int) (runErr : Option EngineErr) (retReply : AllReply)
    (t0 : Option Int) (hc : cacheGet cache keyspace = some schema) :
    (attrGet req.attributes schema.tid = none →
        (primPut keyspace req none cache genTid tidTime nowMs runErr retReply).req.attributes
          = attrSet req.attributes schema.tid (.strV genTid)) ∧
    (attrTruthy req.attributes schema.tid = true →
        (primPut keyspace req none cache genTid tidTime nowMs runErr retReply).req.attributes
          = req.attributes) ∧
    (primPut keyspace req none cache genTid tidTime nowMs runErr retReply).req.timestamp
      = some (tidTime
          (((attrGet (primPut keyspace req none cache genTid tidTime nowMs runErr retReply).req.attributes
              schema.tid).getD .nullV).toStr)) ∧
    (primPut keyspace { req with timestamp := t0 } none cache genTid tidTime nowMs runErr retReply).req.timestamp
      = (primPut keyspace req none cache genTid tidTime nowMs runErr retReply).req.timestamp := by
  have he := primPut_data_eq keyspace req cache schema genTid tidTime nowMs runErr retReply hc
  have he3 := primPut_data_eq keyspace { req with timestamp := t0 } cache schema genTid
    tidTime nowMs runErr retReply hc
  refine ⟨fun hab => ?_, fun ht => ?_, ?_, ?_⟩
  · have ht : attrTruthy req.attributes schema.tid = false := by
      simp [attrTruthy, hab]
    rw [he]
    cases runErr <;> simp [ht]
  · rw [he]
    cases runErr <;> simp [ht]
  · rw [he]
    cases runErr <;> by_cases ht : attrTruthy req.attributes schema.tid <;> simp [ht]
  · rw [he, he3]
    cases runErr <;> by_cases ht : attrTruthy req.attributes schema.tid <;> simp [ht]

theorem put_mutates_request_witness :
    (primPut "Pks" reqWithTid none [("Pks", sampleSchema)] "uuid-2" (fun _ => 5)
        0 none .absent).req.attributes
      = [("title", JsVal.strV "x"), ("tid", JsVal.strV "t-9")] :=
  (put_mutates_request "Pks" reqWithTid [("Pks", sampleSchema)] sampleSchema
      "uuid-2" (fun _ => 5) 0 none .absent none rfl).2.1 rfl

/-- C1: after every successful write to the `data` relation under a schema
whose retention policy has type `latest` (and only for such writes — never
for `meta` writes, and never under another policy type), the retention
engine reads all revisions of the written item (keyed by every `iKeys`
attribute except `tid`, with no limit) ordered by `tid` ascending; when the
returned count exceeds the policy's `count` it marks exactly the oldest
`(returned_count - count)` revisions by setting their expiry marker to
`now + grace_ttl` seconds (in milliseconds), leaving all their other
attributes unchanged, and runs those marks in one batch together with the
one statement that deletes every revision whose expiry marker has already
passed. -/
theorem retention_mark_and_delete (keyspace : String) (req wreq : Req)
    (cache : Cache) (schema : SchemaInfo) (genTid : String)
    (tidTime : String → Int) (nowMs : Int) (retReply : AllReply)
    (result : GetResult)
    (hc : cacheGet cache keyspace = some schema)
    (hl : schema.revisionRetentionPolicy.type = "latest")
    (hread : primGet keyspace (retentionReadQuery schema wreq) "data" (some schema) retReply
      = .ok result) :
    ((primPut keyspace req none cache genTid tidTime nowMs none retReply).effects).tail
      = revisionPolicyUpdate keyspace schema
          (primPut keyspace req none cache genTid tidTime nowMs none retReply).req
          nowMs retReply ∧
    ((primPut keyspace req (some "meta") cache genTid tidTime nowMs none retReply).effects).tail
      = [] ∧
    (∀ s2 : SchemaInfo, s2.revisionRetentionPolicy.type ≠ "latest" →
        revisionPolicyUpdate keyspace s2 wreq nowMs retReply = []) ∧
    (retentionReadQuery schema wreq).attributes
      = (schema.iKeys.filter (fun a => a != schema.tid)).filterMap
          (fun att => (attrGet wreq.attributes att).map (fun v => (att, v))) ∧
    (retentionReadQuery schema wreq).order = [(schema.tid, "asc")] ∧
    (retentionReadQuery schema wreq).limit = none ∧
    (schema.revisionRetentionPolicy.count < result.count →
        revisionPolicyUpdate keyspace schema wreq nowMs retReply
          = [.engineAll keyspace "data" (retentionReadQuery schema wreq),
             .runBatch ((result.items.take
                   (result.count - schema.revisionRetentionPolicy.count)).map
                 (markStmt keyspace wreq
                   (nowMs + schema.revisionRetentionPolicy.grace_ttl * 1000))
               ++ [.deleteExpiredQuery keyspace schema.hash])]) ∧
    (schema.revisionRetentionPolicy.count < result.count →
        ((result.items.take (result.count - schema.revisionRetentionPolicy.count)).map
            (markStmt keyspace wreq
              (nowMs + schema.revisionRetentionPolicy.grace_ttl * 1000))).length
          = result.count - schema.revisionRetentionPolicy.count) ∧
    (result.count ≤ schema.revisionRetentionPolicy.count →
        revisionPolicyUpdate keyspace schema wreq nowMs retReply
          = [.engineAll keyspace "data" (retentionReadQuery schema wreq)]) ∧
    (∀ (item : AttrMap) (k : String) (t : Int), k ≠ "_exist_until" →
        attrGet (attrSet item "_exist_until" (.numV t)) k = attrGet item k) ∧
    (∀ (item : AttrMap) (t : Int),
        attrGet (attrSet item "_exist_until" (.numV t)) "_exist_until" = some (.numV t)) ∧
    (∀ (item : AttrMap) (t : Int),
        markStmt keyspace wreq t item
          = .putQueryData keyspace "data"
              { table := wreq.table, attributes := attrSet item "_exist_until" (.numV t) }) ∧
    (∀ (store : List AttrMap) (r : AttrMap),
        r ∈ runDeleteExpired nowMs store ↔ r ∈ store ∧ rowExpired nowMs r = false) := by
  have hcount : result.count = result.items.length :=
    primGet_count_items keyspace (retentionReadQuery schema wreq) "data"
      (some schema) retReply result hread
  have he := primPut_data_eq keyspace req cache schema genTid tidTime nowMs none retReply hc
  refine ⟨?_, ?_, fun s2 hs2 => ?_, rfl, rfl, rfl, fun hx => ?_, fun hx => ?_,
    fun hx => ?_, fun item k t hk => attrGet_attrSet_ne item "_exist_until" k (.numV t) hk,
    fun item t => attrGet_attrSet item "_exist_until" (.numV t),
    fun item t => rfl, fun store r => ?_⟩
  · rw [he]
    by_cases ht : attrTruthy req.attributes schema.tid <;> simp [ht]
  · by_cases ht : attrTruthy req.attributes infoSchemaInfo.tid <;> simp [primPut, ht]
  · simp [revisionPolicyUpdate, hs2]
  · simp [revisionPolicyUpdate, hl, hread, hx]
  · simp [List.length_take, ← hcount, Nat.min_eq_left (Nat.sub_le _ _)]
  · simp [revisionPolicyUpdate, hl, hread, Nat.not_lt.mpr hx]
  · simp [runDeleteExpired, List.mem_filter]

theorem retention_mark_and_delete_witness :
    revisionPolicyUpdate "Rks" sampleSchema retWreq 1000 (.many retRows)
      = [.engineAll "Rks" "data" (retentionReadQuery sampleSchema retWreq),
         .runBatch ((retResult.items.take
               (retResult.count - sampleSchema.revisionRetentionPolicy.count)).map
             (markStmt "Rks" retWreq
               (1000 + sampleSchema.revisionRetentionPolicy.grace_ttl * 1000))
           ++ [.deleteExpiredQuery "Rks" sampleSchema.hash])] :=
  (retention_mark_and_delete "Rks" retWreq retWreq [("Rks", sampleSchema)]
      sampleSchema "g" (fun _ => 0) 1000 (.many retRows) retResult rfl rfl
      rfl).2.2.2.2.2.2.1 (by decide)

end Db
